import Mathlib

/-!
Shallow embedding of the viewer-navigation core of the polaroid-gallery
application (src/App.tsx and its older variants), together with proofs
about the scroll-index mapping, URL state synchronization, history
semantics, the color pipeline and the keyboard handler.

JavaScript numbers are modelled by `JsNum`: either NaN, one of the two
infinities, or a finite rational.  All finite arithmetic occurring in the
code is exact over the rationals, so no rounding model is needed beyond
`Math.round`/`Math.floor`.
-/

namespace PolaroidGallery

/-- A JavaScript `number` as used by the viewer: NaN, ±Infinity, or a
finite value (modelled exactly as a rational). -/
inductive JsNum where
  | nan : JsNum
  | posInf : JsNum
  | negInf : JsNum
  | fin : ℚ → JsNum
deriving DecidableEq, Repr

namespace JsNum

/-- JavaScript division `a / b`, including the division-by-zero behavior:
`0/0 = NaN`, `a/0 = ±Infinity` for `a ≠ 0`. -/
def jsDiv : JsNum → JsNum → JsNum
  | nan, _ => nan
  | _, nan => nan
  | posInf, posInf => nan
  | posInf, negInf => nan
  | negInf, posInf => nan
  | negInf, negInf => nan
  | posInf, fin b => if b < 0 then negInf else posInf
  | negInf, fin b => if b < 0 then posInf else negInf
  | fin _, posInf => fin 0
  | fin _, negInf => fin 0
  | fin a, fin b =>
      if b = 0 then
        if a = 0 then nan else if 0 < a then posInf else negInf
      else fin (a / b)

/-- JavaScript subtraction. -/
def jsSub : JsNum → JsNum → JsNum
  | nan, _ => nan
  | _, nan => nan
  | posInf, posInf => nan
  | negInf, negInf => nan
  | posInf, _ => posInf
  | negInf, _ => negInf
  | fin _, posInf => negInf
  | fin _, negInf => posInf
  | fin a, fin b => fin (a - b)

/-- JavaScript addition. -/
def jsAdd : JsNum → JsNum → JsNum
  | nan, _ => nan
  | _, nan => nan
  | posInf, negInf => nan
  | negInf, posInf => nan
  | posInf, _ => posInf
  | negInf, _ => negInf
  | fin _, posInf => posInf
  | fin _, negInf => negInf
  | fin a, fin b => fin (a + b)

/-- `Math.round`: round half toward +Infinity on finite values; NaN and the
infinities are fixed points. -/
def jsRound : JsNum → JsNum
  | nan => nan
  | posInf => posInf
  | negInf => negInf
  | fin q => fin (⌊q + 1/2⌋ : ℤ)

/-- `Math.floor`. -/
def jsFloor : JsNum → JsNum
  | nan => nan
  | posInf => posInf
  | negInf => negInf
  | fin q => fin (⌊q⌋ : ℤ)

/-- JavaScript strict comparison `a < b` (false whenever NaN is involved). -/
def jsLtb : JsNum → JsNum → Bool
  | nan, _ => false
  | _, nan => false
  | posInf, _ => false
  | negInf, posInf => true
  | negInf, negInf => false
  | negInf, fin _ => true
  | fin _, posInf => true
  | fin _, negInf => false
  | fin a, fin b => a < b

/-- JavaScript loose-strict equality on numbers: `NaN === NaN` is false,
otherwise structural. -/
def jsEqb : JsNum → JsNum → Bool
  | nan, _ => false
  | _, nan => false
  | a, b => a = b

/-- The value is a finite nonnegative number. -/
def nonneg : JsNum → Prop
  | fin q => 0 ≤ q
  | _ => False

instance : DecidablePred nonneg := by
  intro n
  cases n <;> simp [nonneg] <;> infer_instance

end JsNum

/-! ## JavaScript string helpers -/

/-- Numeric value of the decimal digits of a character list. -/
def digitsToNat (ds : List Char) : ℕ :=
  ds.foldl (fun a c => 10 * a + (c.toNat - 48)) 0

/-- JavaScript `parseInt(s, 10)`: skip leading whitespace, read an optional
sign and then the maximal prefix of decimal digits; NaN when no digit is
read. -/
def jsParseInt (s : String) : JsNum :=
  let cs := s.toList.dropWhile Char.isWhitespace
  match cs with
  | '-' :: rest =>
      let ds := rest.takeWhile Char.isDigit
      if ds.isEmpty then .nan else .fin (-(digitsToNat ds : ℚ))
  | '+' :: rest =>
      let ds := rest.takeWhile Char.isDigit
      if ds.isEmpty then .nan else .fin (digitsToNat ds : ℚ)
  | _ =>
      let ds := cs.takeWhile Char.isDigit
      if ds.isEmpty then .nan else .fin (digitsToNat ds : ℚ)

/-- JavaScript `a || b` on strings: the empty string is falsy. -/
def jsOrString (a : Option String) (b : String) : String :=
  match a with
  | some s => if s = "" then b else s
  | none => b

/-! ## Hex color parsing (`hexToRgb`) -/

/-- Character class `[a-f\d]` of the hex regexes, case-insensitive. -/
def isHexChar (c : Char) : Bool :=
  c.isDigit || ('a' ≤ c.toLower && c.toLower ≤ 'f')

/-- Value of one hex digit (assumed to satisfy `isHexChar`). -/
def hexDigitVal (c : Char) : ℤ :=
  if c.isDigit then (c.toNat : ℤ) - 48 else ((c.toLower.toNat : ℤ) - 97) + 10

/-- Value of a two-hex-digit pair, as `parseInt(d1 ++ d2, 16)` computes it. -/
def hexPairVal (a b : Char) : ℤ := 16 * hexDigitVal a + hexDigitVal b

/-- The shorthand regex `^#?([a-f\d])([a-f\d])([a-f\d])$/i` matches. -/
def matchesShorthandHex (s : String) : Bool :=
  match s.toList with
  | ['#', a, b, c] => isHexChar a && isHexChar b && isHexChar c
  | [a, b, c] => isHexChar a && isHexChar b && isHexChar c
  | _ => false

/-- The full regex `^#?([a-f\d]{2})([a-f\d]{2})([a-f\d]{2})$/i` matches. -/
def matchesLongHex (s : String) : Bool :=
  match s.toList with
  | ['#', a, b, c, d, e, f] =>
      isHexChar a && isHexChar b && isHexChar c && isHexChar d &&
        isHexChar e && isHexChar f
  | [a, b, c, d, e, f] =>
      isHexChar a && isHexChar b && isHexChar c && isHexChar d &&
        isHexChar e && isHexChar f
  | _ => false

/-- The `hex.replace(shorthandRegex, (m, r, g, b) => r+r+g+g+b+b)` step:
when the shorthand regex matches, the whole match (including a leading
`#`) is replaced by the doubled captures. -/
def expandShorthand (s : String) : String :=
  if matchesShorthandHex s then
    match s.toList with
    | ['#', a, b, c] => String.mk [a, a, b, b, c, c]
    | [a, b, c] => String.mk [a, a, b, b, c, c]
    | _ => s
  else s

/-- An RGB triple as produced by `hexToRgb`. -/
structure RGB where
  r : ℤ
  g : ℤ
  b : ℤ
deriving DecidableEq, Repr

/-- `hexToRgb` from src/App.tsx: expand a 3-digit shorthand, then run the
6-digit regex; on a match parse the three channel pairs base 16, otherwise
return black `{r: 0, g: 0, b: 0}`. -/
def hexToRgb (hex : String) : RGB :=
  let h := expandShorthand hex
  if matchesLongHex h then
    match h.toList with
    | ['#', r1, r2, g1, g2, b1, b2] =>
        ⟨hexPairVal r1 r2, hexPairVal g1 g2, hexPairVal b1 b2⟩
    | [r1, r2, g1, g2, b1, b2] =>
        ⟨hexPairVal r1 r2, hexPairVal g1 g2, hexPairVal b1 b2⟩
    | _ => ⟨0, 0, 0⟩
  else ⟨0, 0, 0⟩

/-- `Math.round` on an exact (finite) value. -/
def jsMathRound (q : ℚ) : ℤ := ⌊q + 1/2⌋

/-- The `rgb(r, g, b)` CSS string for an RGB triple. -/
def rgbString (c : RGB) : String :=
  "rgb(" ++ toString c.r ++ ", " ++ toString c.g ++ ", " ++ toString c.b ++ ")"

/-- `interpolateColor` from src/App.tsx: parse both endpoints, blend each
channel linearly with the factor, round each channel independently and
render a `rgb(...)` string. -/
def interpolateColor (c1 c2 : String) (factor : ℚ) : String :=
  let rgb1 := hexToRgb c1
  let rgb2 := hexToRgb c2
  let r := jsMathRound ((rgb1.r : ℚ) + factor * ((rgb2.r : ℚ) - (rgb1.r : ℚ)))
  let g := jsMathRound ((rgb1.g : ℚ) + factor * ((rgb2.g : ℚ) - (rgb1.g : ℚ)))
  let b := jsMathRound ((rgb1.b : ℚ) + factor * ((rgb2.b : ℚ) - (rgb1.b : ℚ)))
  "rgb(" ++ toString r ++ ", " ++ toString g ++ ", " ++ toString b ++ ")"

/-! ## Data model (src/types.ts), with the optional-chaining shape the code
actually relies on -/

/-- One named swatch of a Sanity palette. -/
structure SanityPaletteSwatch where
  background : Option String := none
  foreground : Option String := none
deriving DecidableEq, Repr

/-- An image asset's palette; only the dominant swatch is used by the app. -/
structure SanityPalette where
  dominant : Option SanityPaletteSwatch := none
deriving DecidableEq, Repr

/-- Image asset metadata. -/
structure SanityMetadata where
  palette : Option SanityPalette := none
deriving DecidableEq, Repr

/-- An image asset: a URL plus optional metadata. -/
structure SanityAsset where
  url : String
  metadata : Option SanityMetadata := none
deriving DecidableEq, Repr

/-- An image reference; the code reads it through `image?.asset?...`, so the
asset is modelled as optional. -/
structure SanityImage where
  asset : Option SanityAsset := none
deriving DecidableEq, Repr

/-- A gallery item (slide). -/
structure GalleryItem where
  title : Option String := none
  image : Option SanityImage := none
deriving DecidableEq, Repr

/-- An exhibit's gallery. -/
structure Gallery where
  galleryItems : Option (List GalleryItem) := none
deriving DecidableEq, Repr

/-- An exhibit. -/
structure ExhibitItem where
  identifier : String
  title : String
  coverImages : Option (List SanityImage) := none
  gallery : Option Gallery := none
deriving DecidableEq, Repr

/-- `selectedExhibit?.gallery?.galleryItems?.filter(i => i.image?.asset) || []`:
the navigable slides of an exhibit. -/
def navigableItems (e : ExhibitItem) : List GalleryItem :=
  ((e.gallery.bind (fun g => g.galleryItems)).getD []).filter
    (fun i => (i.image.bind (fun img => img.asset)).isSome)

/-- The dominant background color of an item's image asset, if any. -/
def itemBackground (i : GalleryItem) : Option String :=
  ((((i.image.bind (fun img => img.asset)).bind
      (fun a => a.metadata)).bind
      (fun m => m.palette)).bind
      (fun p => p.dominant)).bind
      (fun d => d.background)

/-- `selectedExhibit.coverImages?.[0]?.asset?.metadata?.palette?.dominant?.background`. -/
def coverBackground (e : ExhibitItem) : Option String :=
  (((((e.coverImages.bind (fun l => l.head?)).bind
      (fun img => img.asset)).bind
      (fun a => a.metadata)).bind
      (fun m => m.palette)).bind
      (fun p => p.dominant)).bind
      (fun d => d.background)

/-- `galleryColors` from src/App.tsx: empty when no exhibit is selected;
otherwise one color per navigable slide, each the slide's dominant
background or, failing that, the cover fallback color
(`coverBackground || '#2c2435'`). -/
def galleryColors (selected : Option ExhibitItem) : List String :=
  match selected with
  | none => []
  | some e =>
      let coverColor := jsOrString (coverBackground e) "#2c2435"
      (navigableItems e).map (fun item => jsOrString (itemBackground item) coverColor)

/-! ## View state, URL parameters and history operations -/

/-- The controller's view state: the selected exhibit (none = Home) and the
current slide index, a JavaScript number. -/
structure AppState where
  selected : Option ExhibitItem
  index : JsNum
deriving DecidableEq, Repr

/-- The Home state. -/
def homeState : AppState := ⟨none, .fin 0⟩

/-- The `exhibit` and `slide` query parameters as `URLSearchParams.get`
returns them: `none` when absent, possibly the empty string. -/
structure UrlParams where
  exhibit : Option String
  slide : Option String
deriving DecidableEq, Repr

/-- One browser-history write: a `pushState` or a `replaceState`, recording
the `exhibit` and `slide` parameters written to the URL. -/
inductive HistoryOp where
  | push : Option String → Option JsNum → HistoryOp
  | replace : Option String → Option JsNum → HistoryOp
deriving DecidableEq, Repr

/-- Whether a history operation creates a new history entry. -/
def HistoryOp.isPush : HistoryOp → Bool
  | .push _ _ => true
  | .replace _ _ => false

/-- `syncStateFromUrl` from src/App.tsx: resolve the view state from the URL
parameters against the loaded exhibit list, starting from the current state
(`st`).  A falsy `exhibit` parameter resolves to Home; a matched exhibit is
selected with the parsed slide index (kept when `parseInt` yields a
nonnegative number, otherwise 0); an unmatched exhibit id leaves the state
untouched. -/
def syncStateFromUrl (params : UrlParams) (items : List ExhibitItem) (st : AppState) : AppState :=
  match params.exhibit with
  | none => homeState
  | some eid =>
      if eid = "" then homeState
      else
        match items.find? (fun e => e.identifier = eid) with
        | none => st
        | some e =>
            let idx : JsNum :=
              match params.slide with
              | none => .fin 0
              | some s =>
                  if s = "" then .fin 0
                  else
                    match jsParseInt s with
                    | .fin n => if 0 ≤ n then .fin n else .fin 0
                    | _ => .fin 0
            ⟨some e, idx⟩

/-- `handleExhibitClick` from src/App.tsx: select the exhibit at the given
initial index and push `exhibit`/`slide` onto the history. -/
def handleExhibitClick (e : ExhibitItem) (initialIndex : JsNum) (_st : AppState) :
    AppState × List HistoryOp :=
  (⟨some e, initialIndex⟩, [.push (some e.identifier) (some initialIndex)])

/-- `handleBack` from src/App.tsx: return to Home and push the bare pathname
(no `exhibit`/`slide` parameters) onto the history. -/
def handleBack (_st : AppState) : AppState × List HistoryOp :=
  (homeState, [.push none none])

/-! ## The scroll handler -/

/-- `Math.round(scrollLeft / clientWidth)`: the discrete slide index of the
scroll handler. -/
def handleScrollIndex (scrollLeft clientWidth : JsNum) : JsNum :=
  JsNum.jsRound (JsNum.jsDiv scrollLeft clientWidth)

/-- `rawProgress = scrollLeft / clientWidth`. -/
def scrollRawProgress (scrollLeft clientWidth : JsNum) : JsNum :=
  JsNum.jsDiv scrollLeft clientWidth

/-- `index1 = Math.floor(rawProgress)`. -/
def scrollIndex1 (scrollLeft clientWidth : JsNum) : JsNum :=
  JsNum.jsFloor (scrollRawProgress scrollLeft clientWidth)

/-- `factor = rawProgress - index1`: the continuous interpolation factor of
the scroll handler. -/
def scrollFactor (scrollLeft clientWidth : JsNum) : JsNum :=
  JsNum.jsSub (scrollRawProgress scrollLeft clientWidth)
    (scrollIndex1 scrollLeft clientWidth)

/-- The state- and history-affecting part of `handleScroll`: recompute the
discrete index; when it differs from the current one (under JavaScript
`!==`, so NaN always differs) store it and, if an exhibit is selected,
`replaceState` the URL with the new slide index. -/
def handleScrollStep (scrollLeft clientWidth : JsNum) (st : AppState) :
    AppState × List HistoryOp :=
  let index := handleScrollIndex scrollLeft clientWidth
  if JsNum.jsEqb index st.index then (st, [])
  else
    match st.selected with
    | some e => (⟨st.selected, index⟩, [.replace (some e.identifier) (some index)])
    | none => (⟨st.selected, index⟩, [])

/-! ## The keyboard handler -/

/-- The effect a keydown can request: a smooth scroll to a slide index, or
nothing. -/
inductive KeyAction where
  | scrollTo : JsNum → KeyAction
  | noAction : KeyAction
deriving DecidableEq, Repr

/-- `prevSlide`: scroll to `currentIndex - 1` when `currentIndex > 0`. -/
def prevSlide (currentIndex : JsNum) : KeyAction :=
  if JsNum.jsLtb (.fin 0) currentIndex then
    .scrollTo (JsNum.jsSub currentIndex (.fin 1))
  else .noAction

/-- `nextSlide`: scroll to `currentIndex + 1` when
`currentIndex < items.length - 1`. -/
def nextSlide (currentIndex : JsNum) (itemCount : ℕ) : KeyAction :=
  if JsNum.jsLtb currentIndex (.fin ((itemCount : ℚ) - 1)) then
    .scrollTo (JsNum.jsAdd currentIndex (.fin 1))
  else .noAction

/-- `handleKeyDown` from src/App.tsx, together with its (absent) effect on
the view state: `ArrowLeft` and `ArrowRight` request a scroll via
`prevSlide`/`nextSlide`; every other key — Escape included — does nothing,
and the handler never modifies the view state itself. -/
def handleKeyDownStep (key : String) (st : AppState) (itemCount : ℕ) :
    AppState × KeyAction :=
  (st,
    if key = "ArrowLeft" then prevSlide st.index
    else if key = "ArrowRight" then nextSlide st.index itemCount
    else .noAction)

/-! ## Concrete sample data for witnesses and counterexamples -/

/-- A sample image asset. -/
def sampleAsset : SanityAsset := { url := "https://example.test/a.jpg" }

/-- A sample image carrying the sample asset. -/
def sampleImage : SanityImage := { asset := some sampleAsset }

/-- A sample navigable slide. -/
def sampleSlide : GalleryItem := { title := some "Slide", image := some sampleImage }

/-- A sample exhibit with exactly one navigable slide. -/
def sampleExhibitOne : ExhibitItem :=
  { identifier := "ex1", title := "One",
    gallery := some { galleryItems := some [sampleSlide] } }

/-- A sample exhibit with exactly two navigable slides. -/
def sampleExhibitTwo : ExhibitItem :=
  { identifier := "ex2", title := "Two",
    gallery := some { galleryItems := some [sampleSlide, sampleSlide] } }

/-- A sample Detail view state on the two-slide exhibit. -/
def sampleDetailState : AppState := ⟨some sampleExhibitTwo, .fin 1⟩

/-! ## Spec-side definition for the refinement claim about the discrete
scroll index -/

/-- Modelled from the spec's words for comparison: the discrete slide index
as §8 of the spec states it, `round(scrollLeft/clientWidth)` clamped into
`[0, lastIndex]`. -/
def specClampedScrollIndex (scrollLeft clientWidth : ℚ) (lastIndex : ℤ) : ℤ :=
  max 0 (min ⌊scrollLeft / clientWidth + 1/2⌋ lastIndex)

/-! ## Helper lemmas -/

/-- `Math.round` of an integer value is that integer. -/
theorem jsMathRound_int (z : ℤ) : jsMathRound (z : ℚ) = z := by
  unfold jsMathRound
  rw [Int.floor_int_add]
  norm_num

/-- C1 (counterexample): the claim "the discrete slide index computed by the
scroll handler equals round(scrollLeft / clientWidth) clamped into
[0, lastIndex]" is false at scrollLeft = 500, clientWidth = 100 on a
two-slide gallery (lastIndex = 1): the handler computes 5, the clamped
value is 1. -/
theorem C1_index_not_clamped_cex :
    handleScrollIndex (.fin 500) (.fin 100) ≠
      .fin (specClampedScrollIndex 500 100
        (((navigableItems sampleExhibitTwo).length : ℤ) - 1)) := by
  have hlen : (navigableItems sampleExhibitTwo).length = 2 := by decide
  simp [handleScrollIndex, JsNum.jsDiv, JsNum.jsRound, specClampedScrollIndex,
    hlen]
  norm_num

/-- C1 (amended): for every scrollLeft and clientWidth > 0 the discrete
slide index computed by the scroll handler equals
round(scrollLeft / clientWidth), with no clamping applied. -/
theorem C1_scroll_index_round (s w : ℚ) (hw : 0 < w) :
    handleScrollIndex (.fin s) (.fin w) = .fin (⌊s / w + 1/2⌋ : ℤ) := by
  have h : w ≠ 0 := ne_of_gt hw
  simp [handleScrollIndex, JsNum.jsDiv, JsNum.jsRound, h]

/-- C1 (witness): at scrollLeft = 250, clientWidth = 100 the handler
computes round(2.5) = 3. -/
theorem C1_scroll_index_round_witness :
    handleScrollIndex (.fin 250) (.fin 100) = .fin 3 :=
  (C1_scroll_index_round 250 100 (by norm_num)).trans (by norm_num)

/-- C2 (counterexample): the claim "when clientWidth = 0 the scroll-index
mapping yields discrete index 0 and interpolation factor 0" is false at
scrollLeft = 0, clientWidth = 0: both the index and the factor are NaN. -/
theorem C2_zero_width_cex :
    handleScrollIndex (.fin 0) (.fin 0) ≠ .fin 0 ∧
      scrollFactor (.fin 0) (.fin 0) ≠ .fin 0 := by
  decide

/-- C2 (amended): for every scrollLeft, when clientWidth = 0 the
scroll-index mapping does not throw (every operation is total, as JS
arithmetic is), but the division is unguarded: the discrete index is NaN
when scrollLeft = 0 and ±Infinity otherwise, and the interpolation factor
is always NaN — never index 0 / factor 0. -/
theorem C2_zero_width_behavior (s : ℚ) :
    handleScrollIndex (.fin s) (.fin 0) =
        (if s = 0 then JsNum.nan else if 0 < s then JsNum.posInf else JsNum.negInf) ∧
      scrollFactor (.fin s) (.fin 0) = JsNum.nan := by
  by_cases h0 : s = 0
  · subst h0
    exact ⟨by decide, by decide⟩
  · by_cases h1 : 0 < s
    · constructor <;>
        simp [handleScrollIndex, scrollFactor, scrollRawProgress, scrollIndex1,
          JsNum.jsDiv, JsNum.jsRound, JsNum.jsFloor, JsNum.jsSub, h0, h1]
    · constructor <;>
        simp [handleScrollIndex, scrollFactor, scrollRawProgress, scrollIndex1,
          JsNum.jsDiv, JsNum.jsRound, JsNum.jsFloor, JsNum.jsSub, h0, h1]

/-- C3 (counterexample): the claim "URL state synchronization clamps or
rejects an out-of-range slide index, so the restored Detail index always
satisfies index < navigableSlideCount" is false for the deep link
`?exhibit=ex1&slide=5` on a one-slide exhibit: the restored index is 5
while the navigable slide count is 1. -/
theorem C3_deep_link_unclamped_cex :
    (syncStateFromUrl ⟨some "ex1", some "5"⟩ [sampleExhibitOne] homeState).index =
        .fin 5 ∧
      (navigableItems sampleExhibitOne).length = 1 := by
  decide

/-- C3 (amended): URL state synchronization rejects only negative or
non-numeric slide values; a parsed nonnegative index is accepted unclamped,
so the restored index satisfies 0 ≤ index but not necessarily
index < navigableSlideCount. -/
theorem C3_sync_index_nonneg :
    (∀ (params : UrlParams) (items : List ExhibitItem) (st : AppState),
      st.index.nonneg → ((syncStateFromUrl params items st).index).nonneg) ∧
    (∀ (eid s : String) (n : ℚ) (items : List ExhibitItem) (e : ExhibitItem)
        (st : AppState),
      items.find? (fun x => x.identifier = eid) = some e → eid ≠ "" →
        s ≠ "" → jsParseInt s = .fin n → 0 ≤ n →
        (syncStateFromUrl ⟨some eid, some s⟩ items st).index = .fin n) := by
  constructor
  · intro params items st h
    rcases params with ⟨pe, ps⟩
    unfold syncStateFromUrl
    cases pe with
    | none => simp [homeState, JsNum.nonneg]
    | some eid =>
        by_cases he : eid = ""
        · simp [he, homeState, JsNum.nonneg]
        · simp only [he, if_false]
          cases hf : items.find? (fun e => e.identifier = eid) with
          | none => exact h
          | some e =>
              simp only [hf]
              cases ps with
              | none => simp [JsNum.nonneg]
              | some s =>
                  by_cases hs : s = ""
                  · simp [hs, JsNum.nonneg]
                  · simp only [hs, if_false]
                    cases hp : jsParseInt s with
                    | fin n =>
                        by_cases hn : 0 ≤ n
                        · simp [hp, hn, JsNum.nonneg]
                        · simp [hp, hn, JsNum.nonneg]
                    | nan => simp [hp, JsNum.nonneg]
                    | posInf => simp [hp, JsNum.nonneg]
                    | negInf => simp [hp, JsNum.nonneg]
  · intro eid s n items e st hf he hs hp hn
    simp [syncStateFromUrl, he, hf, hs, hp, hn]

/-- C3 (witness): the amended statement at the counterexample input: from
Home, the deep link `?exhibit=ex1&slide=5` restores a nonnegative index,
namely 5. -/
theorem C3_sync_index_nonneg_witness :
    ((syncStateFromUrl ⟨some "ex1", some "5"⟩ [sampleExhibitOne] homeState).index).nonneg ∧
      (syncStateFromUrl ⟨some "ex1", some "5"⟩ [sampleExhibitOne] homeState).index =
        .fin 5 :=
  ⟨C3_sync_index_nonneg.1 ⟨some "ex1", some "5"⟩ [sampleExhibitOne] homeState
      (by decide),
    C3_sync_index_nonneg.2 "ex1" "5" 5 [sampleExhibitOne] sampleExhibitOne homeState
      (by decide) (by decide) (by decide) (by decide) (by norm_num)⟩

/-- C4 (counterexample): the claim "a URL whose exhibit parameter matches no
identifier resolves the view state to Home on load or on popstate" is false
on popstate from a Detail state: with the URL `?exhibit=ghost` and a loaded
list not containing "ghost", synchronization leaves the previous Detail
state untouched instead of resolving to Home. -/
theorem C4_unmatched_exhibit_cex :
    syncStateFromUrl ⟨some "ghost", none⟩ [sampleExhibitOne] sampleDetailState =
        sampleDetailState ∧
      sampleDetailState ≠ homeState := by
  decide

/-- C4 (amended): a missing (or empty) exhibit parameter resolves the view
state to Home; an exhibit parameter that matches no identifier leaves the
view state unchanged — which is Home on initial load only because the
initial state is Home. -/
theorem C4_missing_or_unmatched_exhibit :
    (∀ (slide : Option String) (items : List ExhibitItem) (st : AppState),
      syncStateFromUrl ⟨none, slide⟩ items st = homeState) ∧
    (∀ (eid : String) (slide : Option String) (items : List ExhibitItem)
        (st : AppState),
      eid ≠ "" → items.find? (fun e => e.identifier = eid) = none →
        syncStateFromUrl ⟨some eid, slide⟩ items st = st) := by
  constructor
  · intro slide items st
    rfl
  · intro eid slide items st he hf
    simp [syncStateFromUrl, he, hf]

/-- C4 (witness): with no exhibit parameter synchronization from a Detail
state resolves to Home, and with the unmatched id "ghost" it keeps the
Detail state. -/
theorem C4_missing_or_unmatched_exhibit_witness :
    syncStateFromUrl ⟨none, some "3"⟩ [sampleExhibitOne] sampleDetailState =
        homeState ∧
      syncStateFromUrl ⟨some "ghost", none⟩ [sampleExhibitOne] sampleDetailState =
        sampleDetailState :=
  ⟨C4_missing_or_unmatched_exhibit.1 (some "3") [sampleExhibitOne] sampleDetailState,
    C4_missing_or_unmatched_exhibit.2 "ghost" none [sampleExhibitOne]
      sampleDetailState (by decide) (by decide)⟩

/-- C5 (confirmed): for a URL with a matched exhibit whose slide parameter
is absent, non-numeric (parseInt yields NaN), or parses to a negative
number, URL state synchronization selects the exhibit with index 0. -/
theorem C5_invalid_slide_resolves_to_zero (eid : String) (slide : Option String)
    (items : List ExhibitItem) (e : ExhibitItem) (st : AppState)
    (hf : items.find? (fun x => x.identifier = eid) = some e) (he : eid ≠ "")
    (hs : slide = none ∨
      ∃ s, slide = some s ∧
        (jsParseInt s = JsNum.nan ∨ ∃ n : ℚ, jsParseInt s = .fin n ∧ n < 0)) :
    syncStateFromUrl ⟨some eid, slide⟩ items st = ⟨some e, .fin 0⟩ := by
  rcases hs with h | ⟨s, rfl, h⟩
  · subst h
    simp [syncStateFromUrl, he, hf]
  · by_cases hemp : s = ""
    · simp [syncStateFromUrl, he, hf, hemp]
    · rcases h with h | ⟨n, hn, hneg⟩
      · simp [syncStateFromUrl, he, hf, hemp, h]
      · simp [syncStateFromUrl, he, hf, hemp, hn, not_le.mpr hneg]

/-- C5 (witness): for the matched exhibit "ex1", the slide values `"abc"`
(non-numeric), `"-2"` (negative) and an absent slide parameter all restore
index 0. -/
theorem C5_invalid_slide_resolves_to_zero_witness :
    syncStateFromUrl ⟨some "ex1", some "abc"⟩ [sampleExhibitOne] homeState =
        ⟨some sampleExhibitOne, .fin 0⟩ ∧
      syncStateFromUrl ⟨some "ex1", some "-2"⟩ [sampleExhibitOne] homeState =
        ⟨some sampleExhibitOne, .fin 0⟩ ∧
      syncStateFromUrl ⟨some "ex1", none⟩ [sampleExhibitOne] homeState =
        ⟨some sampleExhibitOne, .fin 0⟩ :=
  ⟨C5_invalid_slide_resolves_to_zero "ex1" (some "abc") [sampleExhibitOne]
      sampleExhibitOne homeState (by decide) (by decide)
      (Or.inr ⟨"abc", rfl, Or.inl (by decide)⟩),
    C5_invalid_slide_resolves_to_zero "ex1" (some "-2") [sampleExhibitOne]
      sampleExhibitOne homeState (by decide) (by decide)
      (Or.inr ⟨"-2", rfl, Or.inr ⟨-2, by decide, by norm_num⟩⟩),
    C5_invalid_slide_resolves_to_zero "ex1" none [sampleExhibitOne]
      sampleExhibitOne homeState (by decide) (by decide) (Or.inl rfl)⟩

/-- C6 (counterexample): the claim "whenever the view state is Detail,
pressing the Escape key returns the view state to Home" is false in a
concrete Detail state: the keydown handler leaves the state untouched and
requests no action on Escape. -/
theorem C6_escape_cex :
    (handleKeyDownStep "Escape" sampleDetailState 2).1 ≠ homeState ∧
      (handleKeyDownStep "Escape" sampleDetailState 2).2 = KeyAction.noAction := by
  decide

/-- C6 (amended): in Detail, pressing Escape leaves the view state
unchanged and triggers no action — the keydown handler responds only to
ArrowLeft/ArrowRight; the view state returns to Home through the back
action (background click), not through Escape. -/
theorem C6_escape_noop :
    (∀ (st : AppState) (itemCount : ℕ),
      handleKeyDownStep "Escape" st itemCount = (st, KeyAction.noAction)) ∧
    (∀ st : AppState, (handleBack st).1 = homeState) := by
  exact ⟨fun st itemCount => rfl, fun st => rfl⟩

/-- C7 (confirmed): entering a detail view pushes `exhibit` and `slide`
(one new history entry), returning to the list view pushes the bare URL
(one new history entry), and an index change from passive scrolling in a
detail view writes `exhibit`/`slide` with a single replace; the scroll
handler never pushes. -/
theorem C7_history_semantics :
    (∀ (e : ExhibitItem) (i : JsNum) (st : AppState),
      (handleExhibitClick e i st).2 = [.push (some e.identifier) (some i)]) ∧
    (∀ st : AppState, (handleBack st).2 = [.push none none]) ∧
    (∀ (s w : JsNum) (st : AppState) (e : ExhibitItem),
      st.selected = some e →
        JsNum.jsEqb (handleScrollIndex s w) st.index = false →
        (handleScrollStep s w st).2 =
          [.replace (some e.identifier) (some (handleScrollIndex s w))]) ∧
    (∀ (s w : JsNum) (st : AppState),
      ∀ op ∈ (handleScrollStep s w st).2, op.isPush = false) := by
  refine ⟨fun e i st => rfl, fun st => rfl, ?_, ?_⟩
  · intro s w st e hsel heq
    simp [handleScrollStep, heq, hsel]
  · intro s w st op hop
    unfold handleScrollStep at hop
    by_cases heq : JsNum.jsEqb (handleScrollIndex s w) st.index
    · simp [heq] at hop
    · simp only [heq, Bool.false_eq_true, if_false] at hop
      cases hsel : st.selected with
      | some e =>
          simp [hsel] at hop
          simp [hop, HistoryOp.isPush]
      | none => simp [hsel] at hop

/-- C7 (witness): on the two-slide exhibit, clicking the card pushes
`exhibit=ex2&slide=0`, going back pushes the bare URL, and scrolling to a
new index issues exactly one replace with the new slide index. -/
theorem C7_history_semantics_witness :
    (handleExhibitClick sampleExhibitTwo (.fin 0) homeState).2 =
        [.push (some "ex2") (some (.fin 0))] ∧
      (handleBack sampleDetailState).2 = [.push none none] ∧
      (handleScrollStep (.fin 500) (.fin 100) sampleDetailState).2 =
        [.replace (some "ex2") (some (handleScrollIndex (.fin 500) (.fin 100)))] :=
  ⟨C7_history_semantics.1 sampleExhibitTwo (.fin 0) homeState,
    C7_history_semantics.2.1 sampleDetailState,
    C7_history_semantics.2.2.1 (.fin 500) (.fin 100) sampleDetailState
      sampleExhibitTwo (by decide) (by norm_num [handleScrollIndex, JsNum.jsDiv,
        JsNum.jsRound, sampleDetailState, JsNum.jsEqb])⟩

/-- C8 (confirmed): for all hex color strings c1 and c2, interpolating with
factor 0 renders exactly the RGB color of c1 and interpolating with factor
1 renders exactly the RGB color of c2 (each channel rounded independently,
which is exact on the integer channels). -/
theorem C8_interpolate_endpoints (c1 c2 : String) :
    interpolateColor c1 c2 0 = rgbString (hexToRgb c1) ∧
      interpolateColor c1 c2 1 = rgbString (hexToRgb c2) := by
  constructor
  · simp [interpolateColor, rgbString, jsMathRound_int]
  · have harg : ∀ a b : ℤ, (a : ℚ) + 1 * ((b : ℚ) - (a : ℚ)) = (b : ℚ) := by
      intro a b
      ring
    simp [interpolateColor, rgbString, harg, jsMathRound_int]

/-- C9 (confirmed): for every selected exhibit the derived color sequence
has exactly one entry per navigable slide (gallery items carrying a
resolved image asset), and it is empty when no exhibit is selected (Home). -/
theorem C9_gallery_colors_length (e : ExhibitItem) :
    (galleryColors (some e)).length = (navigableItems e).length ∧
      galleryColors none = [] := by
  constructor
  · simp [galleryColors]
  · rfl

/-- C10 (confirmed): for every input string matching neither the 3-digit
shorthand nor the 6-digit hex color pattern, `hexToRgb` returns the default
black `{r: 0, g: 0, b: 0}` — the function (and hence `interpolateColor`) is
total on arbitrary strings. -/
theorem C10_hexToRgb_default_black (s : String)
    (h3 : matchesShorthandHex s = false) (h6 : matchesLongHex s = false) :
    hexToRgb s = ⟨0, 0, 0⟩ := by
  simp [hexToRgb, expandShorthand, h3, h6]

/-- C10 (witness): the non-hex string "xyz" matches neither pattern and
parses to black. -/
theorem C10_hexToRgb_default_black_witness :
    matchesShorthandHex "xyz" = false ∧ matchesLongHex "xyz" = false ∧
      hexToRgb "xyz" = ⟨0, 0, 0⟩ :=
  ⟨by decide, by decide, C10_hexToRgb_default_black "xyz" (by decide) (by decide)⟩

end PolaroidGallery
